import Mathlib

/-!
# Verification of the lumi-puzzle-game coordination core and puzzle engine

Shallow embedding of the repository's TypeScript source:

* `src/unnamed/part_001` — the pure puzzle algorithms (`shufflePieces`,
  `validateSolution`, `swapPieces`, `calculateScore`).
* `src/server.ts` (the revision keyed by persistent player ids, with the
  `socketToPlayer` secondary map) — the socket event handlers
  (`player:join`, `player:ready`, `player:progress`, `player:complete`,
  `game:start`, `game:end`, `game:reset`, `disconnect`).

JavaScript `Map`s are modelled as association lists preserving insertion
order (JS `Map.set` on an existing key keeps its position; `Map.delete`
removes it), numbers as `Int` (all values handled by the claims are
integral, so `Math.round` is the identity), and `Math.random`-driven draws
as an explicit oracle function.
-/

set_option autoImplicit false

namespace Lumi

/-! ## PuzzleEngine (src/unnamed/part_001) -/

/-- Function `calculateScore(timeSeconds, moves)` from `src/unnamed/part_001`.
On integer inputs the final `Math.round` is the identity, so it is omitted. -/
def calculateScore (timeSeconds moves : Int) : Int :=
  let baseScore : Int := 1000
  let timePenalty := max 0 ((timeSeconds - 30) * 10)
  let movePenalty := max 0 ((moves - 9) * 5)
  let timeBonus := if timeSeconds < 20 then (20 - timeSeconds) * 20 else 0
  let moveBonus := if moves < 15 then (15 - moves) * 10 else 0
  max 0 (baseScore - timePenalty - movePenalty + timeBonus + moveBonus)

/-- One swap `[l[i], l[j]] = [l[j], l[i]]` on a list, guarded like the JS
array destructuring (out-of-range indices leave the list unchanged, which
never happens on the source's call sites). -/
def listSwap (l : List Nat) (i j : Nat) : List Nat :=
  match l[i]?, l[j]? with
  | some a, some b => (l.set i b).set j a
  | _, _ => l

/-- The Fisher–Yates loop of `shufflePieces`: `for (i = len-1; i > 0; i--)`
swap position `i` with position `draws i` (the JS draw is
`Math.floor(Math.random() * (i + 1))`, always in `[0, i]`; `draws` is the
oracle supplying those values). -/
def fisherYatesAux (draws : Nat → Nat) : Nat → List Nat → List Nat
  | 0, l => l
  | i + 1, l => fisherYatesAux draws i (listSwap l (i + 1) (draws (i + 1)))

/-- The check `shuffled.every((piece, idx) => piece.index === idx)`, from
position `i` upward. -/
def isSolvedFrom : Nat → List Nat → Bool
  | _, [] => true
  | i, x :: xs => x == i && isSolvedFrom (i + 1) xs

/-- The `isSolved` check inside `shufflePieces` (and the body of
`validateSolution`): every piece's original index equals its position. -/
def isSolved (l : List Nat) : Bool :=
  isSolvedFrom 0 l

/-- Function `shufflePieces` from `src/unnamed/part_001`, with each piece represented
by its `index` field: Fisher–Yates pass, then if the result is already
solved and has more than one piece, swap positions 0 and 1. -/
def shufflePieces (draws : Nat → Nat) (pieces : List Nat) : List Nat :=
  let shuffled := fisherYatesAux draws (pieces.length - 1) pieces
  if isSolved shuffled ∧ shuffled.length > 1 then listSwap shuffled 0 1
  else shuffled

/-! ## Server state (src/server.ts, persistent-id revision)

JS `Map`s become association lists in insertion order. -/

/-- JS `Map.get`: first entry with the given key. -/
def mapGet {α : Type} (m : List (String × α)) (k : String) : Option α :=
  match m with
  | [] => none
  | (k', v) :: rest => if k' = k then some v else mapGet rest k

/-- JS `Map.set`: replace in place if the key exists (JS keeps insertion
order), else append. -/
def mapSet {α : Type} (m : List (String × α)) (k : String) (v : α) :
    List (String × α) :=
  match m with
  | [] => [(k, v)]
  | (k', v') :: rest =>
    if k' = k then (k, v) :: rest else (k', v') :: mapSet rest k v

/-- JS `Map.delete`. -/
def mapDelete {α : Type} (m : List (String × α)) (k : String) :
    List (String × α) :=
  match m with
  | [] => []
  | (k', v') :: rest => if k' = k then rest else (k', v') :: mapDelete rest k

/-- The `Player` record of `src/server.ts`. -/
structure Player where
  id : String
  name : String
  isGameMaster : Bool
  isReady : Bool
  isOnline : Bool
  currentPuzzle : Int
  currentMoves : Int
  completedPuzzles : Int
  score : Int
  totalTime : Int
  lastUpdate : Int
deriving Repr, DecidableEq

/-- The `GameState` record of `src/server.ts`. -/
structure GameState where
  isStarted : Bool
  startTime : Option Int
  totalPuzzles : Int
deriving Repr, DecidableEq

/-- The module-level mutable state of the server: `players` (keyed by
persistent player id), `socketToPlayer` (socket id → player id) and
`gameState`. -/
structure ServerState where
  players : List (String × Player)
  socketToPlayer : List (String × String)
  gameState : GameState
deriving Repr, DecidableEq

/-- Initial value of `gameState`. -/
def initialGameState : GameState :=
  { isStarted := false, startTime := none, totalPuzzles := 0 }

/-- Outbound events. `playersUpdate` is the full-roster snapshot
`io.emit('players:update', Array.from(players.values()))`;
`gameStateTo` is the `socket.emit('game:state', …)` sent to the joining
connection only; the rest are the discrete broadcasts. -/
inductive Broadcast where
  | playersUpdate (roster : List Player)
  | gameStateTo (gs : GameState)
  | gameStarted (gs : GameState)
  | gameEnded (gs : GameState)
  | gameResetEv (gs : GameState)
  | playerCompleted (playerId playerName : String)
      (puzzleIndex puzzleScore totalScore : Int)
deriving Repr, DecidableEq

/-- The roster `Array.from(players.values())`, in insertion order. -/
def rosterOf (players : List (String × Player)) : List Player :=
  players.map Prod.snd

/-- The id default `playerData.id || socket.id`: JS `||` falls through on the empty
string (falsy) as well as on a missing field. -/
def jsOrId (id : Option String) (socketId : String) : String :=
  match id with
  | none => socketId
  | some s => if s = "" then socketId else s

/-- The resolution prelude of every non-join handler:
`const playerId = socketToPlayer.get(socket.id);
const player = playerId ? players.get(playerId) : null`
(an empty-string player id is falsy, hence unresolved). -/
def resolvePlayer (st : ServerState) (socketId : String) :
    Option (String × Player) :=
  match mapGet st.socketToPlayer socketId with
  | none => none
  | some pid =>
    if pid = "" then none
    else
      match mapGet st.players pid with
      | none => none
      | some p => some (pid, p)

/-- Payload of `player:join`. -/
structure JoinData where
  id : Option String
  name : String
  isGameMaster : Bool
deriving Repr, DecidableEq

/-- Payload of `player:complete`. -/
structure CompleteData where
  completedPuzzles : Int
  score : Int
  totalTime : Int
  currentPuzzle : Int
  puzzleIndex : Int
  puzzleScore : Int
deriving Repr, DecidableEq

/-- The `player:join` handler. A known persistent id is marked online and
rebound; an unknown one creates a fresh zeroed record. Always emits the
roster snapshot and sends the current game state to the joining socket. -/
def handleJoin (st : ServerState) (socketId : String) (d : JoinData)
    (now : Int) : ServerState × List Broadcast :=
  let playerId := jsOrId d.id socketId
  match mapGet st.players playerId with
  | some existing =>
    let players' := mapSet st.players playerId
      { existing with isOnline := true, lastUpdate := now }
    let s2p' := mapSet st.socketToPlayer socketId playerId
    ({ st with players := players', socketToPlayer := s2p' },
     [Broadcast.playersUpdate (rosterOf players'),
      Broadcast.gameStateTo st.gameState])
  | none =>
    let p : Player :=
      { id := playerId, name := d.name, isGameMaster := d.isGameMaster,
        isReady := false, isOnline := true, currentPuzzle := 0,
        currentMoves := 0, completedPuzzles := 0, score := 0,
        totalTime := 0, lastUpdate := now }
    let players' := mapSet st.players playerId p
    let s2p' := mapSet st.socketToPlayer socketId playerId
    ({ st with players := players', socketToPlayer := s2p' },
     [Broadcast.playersUpdate (rosterOf players'),
      Broadcast.gameStateTo st.gameState])

/-- The `player:ready` handler. -/
def handleReady (st : ServerState) (socketId : String) (isReady : Bool)
    (now : Int) : ServerState × List Broadcast :=
  match resolvePlayer st socketId with
  | none => (st, [])
  | some (pid, p) =>
    let players' := mapSet st.players pid
      { p with isReady := isReady, lastUpdate := now }
    ({ st with players := players' },
     [Broadcast.playersUpdate (rosterOf players')])

/-- The `player:progress` handler (`currentMoves || 0` is the identity on
integer payloads). -/
def handleProgress (st : ServerState) (socketId : String)
    (currentPuzzle currentMoves score totalTime now : Int) :
    ServerState × List Broadcast :=
  match resolvePlayer st socketId with
  | none => (st, [])
  | some (pid, p) =>
    let players' := mapSet st.players pid
      { p with
        currentPuzzle := currentPuzzle,
        currentMoves := currentMoves,
        score := score,
        totalTime := totalTime,
        lastUpdate := now }
    ({ st with players := players' },
     [Broadcast.playersUpdate (rosterOf players')])

/-- The `player:complete` handler: update cumulative fields, emit the
roster snapshot, then the discrete `player:completed` event. -/
def handleComplete (st : ServerState) (socketId : String) (d : CompleteData)
    (now : Int) : ServerState × List Broadcast :=
  match resolvePlayer st socketId with
  | none => (st, [])
  | some (pid, p) =>
    let p' := { p with
      completedPuzzles := d.completedPuzzles,
      score := d.score,
      totalTime := d.totalTime,
      currentPuzzle := d.currentPuzzle,
      lastUpdate := now }
    let players' := mapSet st.players pid p'
    ({ st with players := players' },
     [Broadcast.playersUpdate (rosterOf players'),
      Broadcast.playerCompleted p'.id p'.name d.puzzleIndex d.puzzleScore
        p'.score])

/-- The `game:start` handler: game-master only; `data.totalPuzzles || 5`
defaults a zero (falsy) request to 5. -/
def handleGameStart (st : ServerState) (socketId : String)
    (totalPuzzles now : Int) : ServerState × List Broadcast :=
  match resolvePlayer st socketId with
  | none => (st, [])
  | some (_, p) =>
    if p.isGameMaster then
      let gs : GameState :=
        { isStarted := true, startTime := some now,
          totalPuzzles := if totalPuzzles = 0 then 5 else totalPuzzles }
      ({ st with gameState := gs }, [Broadcast.gameStarted gs])
    else (st, [])

/-- The `game:end` handler: game-master only; keeps `totalPuzzles`. -/
def handleGameEnd (st : ServerState) (socketId : String) :
    ServerState × List Broadcast :=
  match resolvePlayer st socketId with
  | none => (st, [])
  | some (_, p) =>
    if p.isGameMaster then
      let gs : GameState :=
        { isStarted := false, startTime := none,
          totalPuzzles := st.gameState.totalPuzzles }
      ({ st with gameState := gs }, [Broadcast.gameEnded gs])
    else (st, [])

/-- The `players.forEach` body of `game:reset`: delete every non-game-master
entry, reset the stats of game masters in place. -/
def resetPlayers (ps : List (String × Player)) : List (String × Player) :=
  ps.filterMap fun kp =>
    if kp.2.isGameMaster then
      some (kp.1, { kp.2 with
        isReady := false,
        currentPuzzle := 0,
        currentMoves := 0,
        completedPuzzles := 0,
        score := 0,
        totalTime := 0 })
    else none

/-- The `game:reset` handler: game-master only. Zeroes the game state,
prunes/resets players, clears `socketToPlayer` re-adding only the admin's
binding, then emits the discrete `game:reset` event followed by the roster
snapshot. -/
def handleGameReset (st : ServerState) (socketId : String) :
    ServerState × List Broadcast :=
  match resolvePlayer st socketId with
  | none => (st, [])
  | some (pid, p) =>
    if p.isGameMaster then
      let gs := initialGameState
      let players' := resetPlayers st.players
      let s2p' := if pid = "" then [] else [(socketId, pid)]
      ({ players := players', socketToPlayer := s2p', gameState := gs },
       [Broadcast.gameResetEv gs,
        Broadcast.playersUpdate (rosterOf players')])
    else (st, [])

/-- The `disconnect` handler: delete the record when no round has started
(`!isStarted && totalPuzzles === 0`) or when the player is the game master;
otherwise retain it unchanged. Always clears the socket binding and emits
the roster snapshot. -/
def handleDisconnect (st : ServerState) (socketId : String) :
    ServerState × List Broadcast :=
  let players' :=
    match resolvePlayer st socketId with
    | none => st.players
    | some (pid, p) =>
      if !st.gameState.isStarted && st.gameState.totalPuzzles == 0 then
        mapDelete st.players pid
      else if p.isGameMaster then
        mapDelete st.players pid
      else st.players
  let s2p' := mapDelete st.socketToPlayer socketId
  ({ st with players := players', socketToPlayer := s2p' },
   [Broadcast.playersUpdate (rosterOf players')])

/-- Inbound client messages. -/
inductive Msg where
  | join (d : JoinData)
  | ready (isReady : Bool)
  | progress (currentPuzzle currentMoves score totalTime : Int)
  | complete (d : CompleteData)
  | start (totalPuzzles : Int)
  | endGame
  | reset
  | disconnect
deriving Repr, DecidableEq

/-- One atomic processing step: dispatch an inbound message from a socket
to its handler, returning the new state and the emitted events in order. -/
def step (st : ServerState) (socketId : String) (m : Msg) (now : Int) :
    ServerState × List Broadcast :=
  match m with
  | Msg.join d => handleJoin st socketId d now
  | Msg.ready r => handleReady st socketId r now
  | Msg.progress a b c d => handleProgress st socketId a b c d now
  | Msg.complete d => handleComplete st socketId d now
  | Msg.start n => handleGameStart st socketId n now
  | Msg.endGame => handleGameEnd st socketId
  | Msg.reset => handleGameReset st socketId
  | Msg.disconnect => handleDisconnect st socketId

/-- Modelled from the spec: the derived `GamePhase` taxonomy (§3, §4.3) —
the code keeps no phase enum, so the spec's phases are read off
`(isStarted, totalPuzzles)`: Running while started, Lobby when stopped
with no puzzles, Ended when stopped with puzzles left over. -/
inductive GamePhase where
  | lobby
  | running
  | ended
deriving Repr, DecidableEq

/-- Modelled from the spec: which phase a concrete `GameState` is in. -/
def phaseOf (gs : GameState) : GamePhase :=
  if gs.isStarted then GamePhase.running
  else if gs.totalPuzzles = 0 then GamePhase.lobby
  else GamePhase.ended

/-- Roster snapshots among the outbound events. -/
def isRoster : Broadcast → Bool
  | Broadcast.playersUpdate _ => true
  | _ => false

/-- Discrete events (completion notice and phase-transition notices) among
the outbound events; the private `game:state` reply to a joining socket is
neither a snapshot nor a discrete broadcast. -/
def isDiscrete : Broadcast → Bool
  | Broadcast.playerCompleted _ _ _ _ _ => true
  | Broadcast.gameStarted _ => true
  | Broadcast.gameEnded _ => true
  | Broadcast.gameResetEv _ => true
  | _ => false

/-- Holds (`true`) iff no roster snapshot occurs at or after a discrete event in
the emission list — i.e. every discrete event is strictly after every
roster snapshot of the same message. -/
def noRosterAfterDiscrete : List Broadcast → Bool
  | [] => true
  | b :: rest =>
    if isDiscrete b then rest.all (fun x => !isRoster x)
      && noRosterAfterDiscrete rest
    else noRosterAfterDiscrete rest

/-! ### Concrete test fixtures -/

/-- A game-master participant record. -/
def gmP : Player :=
  { id := "gm", name := "Mod", isGameMaster := true, isReady := false,
    isOnline := true, currentPuzzle := 0, currentMoves := 0,
    completedPuzzles := 0, score := 0, totalTime := 0, lastUpdate := 0 }

/-- A regular participant record. -/
def p1P : Player :=
  { id := "p1", name := "Alice", isGameMaster := false, isReady := false,
    isOnline := true, currentPuzzle := 1, currentMoves := 4,
    completedPuzzles := 1, score := 950, totalTime := 20, lastUpdate := 0 }

/-- Lobby state: game master on socket `c0`, Alice on socket `c1`. -/
def stLobby : ServerState :=
  { players := [("gm", gmP), ("p1", p1P)],
    socketToPlayer := [("c0", "gm"), ("c1", "p1")],
    gameState := initialGameState }

/-- The running-round `GameState`: started, 3 puzzles. -/
def runningGS : GameState :=
  { isStarted := true, startTime := some 100, totalPuzzles := 3 }

/-- Mid-round state: same roster, game started with 3 puzzles. -/
def stRun : ServerState :=
  { players := [("gm", gmP), ("p1", p1P)],
    socketToPlayer := [("c0", "gm"), ("c1", "p1")],
    gameState := runningGS }

/-- A sample completion payload. -/
def completeEx : CompleteData :=
  { completedPuzzles := 2, score := 1800, totalTime := 55,
    currentPuzzle := 2, puzzleIndex := 1, puzzleScore := 850 }

end Lumi

namespace Lumi

/-! ### PuzzleEngine lemmas -/

theorem listSwap_length (l : List Nat) (i j : Nat) :
    (listSwap l i j).length = l.length := by
  unfold listSwap
  cases h1 : l[i]? <;> cases h2 : l[j]? <;> simp

theorem fisherYatesAux_length (draws : Nat → Nat) (k : Nat) (l : List Nat) :
    (fisherYatesAux draws k l).length = l.length := by
  induction k generalizing l with
  | zero => rfl
  | succ i ih => simp [fisherYatesAux, ih, listSwap_length]

theorem isSolvedFrom_iff (l : List Nat) :
    ∀ i, isSolvedFrom i l = true ↔ l = List.range' i l.length := by
  induction l with
  | nil => intro i; simp [isSolvedFrom]
  | cons x xs ih =>
    intro i
    simp only [isSolvedFrom, Bool.and_eq_true, beq_iff_eq, ih,
      List.length_cons, List.range'_succ]
    constructor
    · rintro ⟨rfl, h⟩
      exact congrArg (List.cons x) h
    · intro h
      injection h with h1 h2
      exact ⟨h1, h2⟩

theorem isSolved_iff (l : List Nat) :
    isSolved l = true ↔ l = List.range l.length := by
  rw [isSolved, isSolvedFrom_iff, List.range_eq_range']

/-! ### Association-list map lemmas -/

theorem mapGet_mapSet_self {α : Type} (m : List (String × α)) (k : String)
    (v : α) : mapGet (mapSet m k v) k = some v := by
  induction m with
  | nil => simp [mapSet, mapGet]
  | cons kv rest ih =>
    obtain ⟨k', v'⟩ := kv
    by_cases h : k' = k <;> simp [mapSet, mapGet, h, ih]

theorem mapGet_mapSet_ne {α : Type} (m : List (String × α)) (k k' : String)
    (v : α) (h : k' ≠ k) : mapGet (mapSet m k v) k' = mapGet m k' := by
  induction m with
  | nil =>
    simp only [mapSet, mapGet]
    rw [if_neg fun hh => h hh.symm]
  | cons kv rest ih =>
    obtain ⟨a, b⟩ := kv
    by_cases ha : a = k
    · subst ha
      simp only [mapSet, if_pos rfl, mapGet]
      rw [if_neg fun hh => h hh.symm, if_neg fun hh => h hh.symm]
    · simp only [mapSet, if_neg ha, mapGet]
      by_cases ha' : a = k'
      · rw [if_pos ha', if_pos ha']
      · rw [if_neg ha', if_neg ha', ih]

/-! ### C1 — worked score examples -/

/-- C1 counterexample: the claim asserts `score(30, 9) = 1000`, but the
code's formula gives `1060` on that input (the move bonus
`(15 − 9) × 10 = 60` applies at the minimum move count). -/
theorem C1_counterexample :
    calculateScore 30 9 = 1060 ∧ calculateScore 30 9 ≠ 1000 := by
  decide

/-- C1 (amended): the worked examples of the score formula are
`score(30, 9) = 1060`, `score(10, 10) = 1245` and `score(60, 20) = 645`. -/
theorem C1_score_examples :
    calculateScore 30 9 = 1060 ∧ calculateScore 10 10 = 1245 ∧
      calculateScore 60 20 = 645 := by
  decide

/-! ### C9 — score monotone in time, non-negative -/

/-- C9: for fixed `moveCount`, `score` is non-increasing in `timeSeconds`
once past the 30-second grace threshold, and `score` is non-negative on all
non-negative inputs. -/
theorem C9_score_monotone_and_nonneg :
    (∀ m t1 t2 : Int, 30 ≤ t1 → t1 ≤ t2 →
      calculateScore t2 m ≤ calculateScore t1 m) ∧
    (∀ t m : Int, 0 ≤ t → 0 ≤ m → 0 ≤ calculateScore t m) := by
  constructor
  · intro m t1 t2 h30 h12
    unfold calculateScore
    simp only
    split_ifs <;> omega
  · intro t m _ _
    exact le_max_left 0 _

/-- C9 witness: the monotonicity part at `(t1, t2, m) = (35, 40, 9)` and
the non-negativity part at `(t, m) = (5, 5)`. -/
theorem C9_score_monotone_and_nonneg_witness :
    calculateScore 40 9 ≤ calculateScore 35 9 ∧
      (0 : Int) ≤ calculateScore 5 5 :=
  ⟨C9_score_monotone_and_nonneg.1 9 35 40 (by decide) (by decide),
   C9_score_monotone_and_nonneg.2 5 5 (by decide) (by decide)⟩

/-! ### C8 — shuffle never returns the identity -/

/-- C8: for more than one piece and every sequence of draws, the shuffled
board is never the identity arrangement (never already solved). -/
theorem C8_shuffle_never_identity (draws : Nat → Nat) (n : Nat)
    (h : 1 < n) : shufflePieces draws (List.range n) ≠ List.range n := by
  rw [shufflePieces]
  simp only [List.length_range]
  set s := fisherYatesAux draws (n - 1) (List.range n) with hs
  have hlen : s.length = n := by
    rw [hs, fisherYatesAux_length, List.length_range]
  by_cases hsolved : isSolved s = true
  · rw [if_pos ⟨hsolved, by omega⟩]
    have hid : s = List.range n := by
      have hr := (isSolved_iff s).mp hsolved
      rwa [hlen] at hr
    obtain ⟨m, rfl⟩ : ∃ m, n = m + 2 := ⟨n - 2, by omega⟩
    have hr : List.range (m + 2) = 0 :: 1 :: List.range' 2 m := by
      rw [List.range_eq_range']
      rfl
    rw [hid, hr]
    simp [listSwap, List.set]
  · rw [if_neg fun hc => hsolved hc.1]
    intro hcon
    apply hsolved
    rw [isSolved_iff, hlen, hcon]

/-- C8 witness: three pieces with the draw oracle constantly 0 — the
shuffle of `[0, 1, 2]` is not `[0, 1, 2]`. -/
theorem C8_shuffle_never_identity_witness :
    shufflePieces (fun _ => 0) (List.range 3) ≠ List.range 3 :=
  C8_shuffle_never_identity (fun _ => 0) 3 (by decide)

/-! ### C4 — start(n) and the puzzle-count default -/

/-- C4 counterexample: the claim asserts `start(0)` yields
`totalPuzzleCount = max(1, 0) = 1`, but the code's `data.totalPuzzles || 5`
defaults the falsy request `0` to `5`. -/
theorem C4_counterexample :
    (step stLobby "c0" (Msg.start 0) 5).1.gameState.totalPuzzles = 5 ∧
      (step stLobby "c0" (Msg.start 0) 5).1.gameState.totalPuzzles ≠ 1 := by
  decide

/-- C4 (amended): a `start(n)` from a connection resolving to a game master
sets `totalPuzzleCount` to `n` when `n ≠ 0` and to the default `5` when
`n = 0`; in particular `start(0)` yields `totalPuzzleCount = 5`. -/
theorem C4_start_sets_total_puzzles (st : ServerState) (c : String)
    (n now : Int) (pid : String) (p : Player)
    (hres : resolvePlayer st c = some (pid, p))
    (hgm : p.isGameMaster = true) :
    (step st c (Msg.start n) now).1.gameState.totalPuzzles =
      if n = 0 then 5 else n := by
  simp [step, handleGameStart, hres, hgm]

/-- C4 witness: at the lobby fixture, the game master's `start(0)` sets the
puzzle count to 5. -/
theorem C4_start_sets_total_puzzles_witness :
    (step stLobby "c0" (Msg.start 0) 5).1.gameState.totalPuzzles = 5 := by
  have h := C4_start_sets_total_puzzles stLobby "c0" 0 5 "gm" gmP
    (by decide) (by decide)
  simpa using h

/-! ### C7 — unauthorized start is a silent no-op -/

/-- C7: a `start` message from a connection that does not resolve to a
game-master participant (unbound, or bound to a non-game-master) leaves the
entire server state unchanged and emits nothing. -/
theorem C7_unauthorized_start_noop (st : ServerState) (c : String)
    (n now : Int)
    (h : resolvePlayer st c = none ∨
      ∃ pid p, resolvePlayer st c = some (pid, p) ∧ p.isGameMaster = false) :
    step st c (Msg.start n) now = (st, []) := by
  rcases h with h | ⟨pid, p, hres, hgm⟩
  · simp [step, handleGameStart, h]
  · simp [step, handleGameStart, hres, hgm]

/-- C7 witness: Alice (not a game master) sends `start(7)` at the lobby
fixture — nothing changes, nothing is broadcast. -/
theorem C7_unauthorized_start_noop_witness :
    step stLobby "c1" (Msg.start 7) 0 = (stLobby, []) :=
  C7_unauthorized_start_noop stLobby "c1" 7 0
    (Or.inr ⟨"p1", p1P, by decide, by decide⟩)

/-! ### C3 — disconnect and the online flag (code bug) -/

/-- C3: the spec (and the handler's own comment, "mark as offline instead
of deleting") says a retained participant is marked `online = false` on
disconnect, but the code never clears `isOnline`: disconnecting Alice
mid-round retains her record completely unchanged, still flagged online. -/
theorem C3_disconnect_leaves_online_flag :
    (handleDisconnect stRun "c1").1.players = stRun.players ∧
      (mapGet (handleDisconnect stRun "c1").1.players "p1").map
        Player.isOnline = some true := by
  decide

/-! ### C10 — rejoin with a known id cannot rename or escalate -/

/-- C10: a join whose persistent id matches an existing record only flips
`isOnline` and the timestamp — the stored `name` and `isGameMaster` are
kept, whatever the new payload carries. -/
theorem C10_rejoin_preserves_name_and_role (st : ServerState) (c : String)
    (d : JoinData) (now : Int) (pid : String) (p0 : Player)
    (hid : jsOrId d.id c = pid)
    (hknown : mapGet st.players pid = some p0) :
    ∃ p', mapGet (handleJoin st c d now).1.players pid = some p' ∧
      p'.name = p0.name ∧ p'.isGameMaster = p0.isGameMaster := by
  refine ⟨{ p0 with isOnline := true, lastUpdate := now }, ?_, rfl, rfl⟩
  simp [handleJoin, hid, hknown, mapGet_mapSet_self]

/-- C10 witness: a rejoin for Alice's id carrying the name `"Spoof"` and a
game-master flag leaves her record named `"Alice"` with `role = player`. -/
theorem C10_rejoin_preserves_name_and_role_witness :
    ∃ p', mapGet (handleJoin stRun "c9"
        { id := some "p1", name := "Spoof", isGameMaster := true }
        9).1.players "p1" = some p' ∧
      p'.name = "Alice" ∧ p'.isGameMaster = false := by
  obtain ⟨p', h1, h2, h3⟩ := C10_rejoin_preserves_name_and_role stRun "c9"
    { id := some "p1", name := "Spoof", isGameMaster := true } 9 "p1" p1P
    (by decide) (by decide)
  exact ⟨p', h1, h2.trans rfl, h3.trans rfl⟩

/-! ### C2 — a new join does not unbind the old connection -/

/-- C2 counterexample: with `c1` bound to `p1`, a join for the same
persistent id from `c2` leaves `c1` still bound — a message from `c1`
still resolves to `p1`, contradicting "c1 is no longer bound to p". -/
theorem C2_counterexample :
    mapGet (handleJoin stRun "c2"
      { id := some "p1", name := "Alice", isGameMaster := false }
      7).1.socketToPlayer "c1" = some "p1" ∧
    (resolvePlayer (handleJoin stRun "c2"
      { id := some "p1", name := "Alice", isGameMaster := false }
      7).1 "c1").map Prod.fst = some "p1" := by
  decide

/-- C2 (amended): a join for persistent id `p` from a new connection `c2`
binds `c2` to `p` but does not remove the previous binding — the old
connection `c1` remains bound, and both connections resolve to the same
participant afterwards. -/
theorem C2_join_rebinds_without_unbinding (st : ServerState)
    (c1 c2 : String) (d : JoinData) (now : Int) (p : String)
    (hold : mapGet st.socketToPlayer c1 = some p)
    (hid : jsOrId d.id c2 = p)
    (hne : c1 ≠ c2) (hp : p ≠ "") :
    ∃ pl, mapGet (handleJoin st c2 d now).1.socketToPlayer c2 = some p ∧
      mapGet (handleJoin st c2 d now).1.socketToPlayer c1 = some p ∧
      resolvePlayer (handleJoin st c2 d now).1 c1 = some (p, pl) ∧
      resolvePlayer (handleJoin st c2 d now).1 c2 = some (p, pl) := by
  cases hq : mapGet st.players p with
  | some existing =>
    refine ⟨{ existing with isOnline := true, lastUpdate := now },
      ?_, ?_, ?_, ?_⟩ <;>
      simp [handleJoin, hid, hq, resolvePlayer, mapGet_mapSet_self,
        mapGet_mapSet_ne st.socketToPlayer c2 c1 p hne, hold, hp]
  | none =>
    refine ⟨{
      id := p,
      name := d.name,
      isGameMaster := d.isGameMaster,
      isReady := false,
      isOnline := true,
      currentPuzzle := 0,
      currentMoves := 0,
      completedPuzzles := 0,
      score := 0,
      totalTime := 0,
      lastUpdate := now }, ?_, ?_, ?_, ?_⟩ <;>
      simp [handleJoin, hid, hq, resolvePlayer, mapGet_mapSet_self,
        mapGet_mapSet_ne st.socketToPlayer c2 c1 p hne, hold, hp]

/-- C2 (amended) witness: at the mid-round fixture, a join for `p1` from
`c2` leaves both `c1` and `c2` resolving to Alice. -/
theorem C2_join_rebinds_without_unbinding_witness :
    ∃ pl, mapGet (handleJoin stRun "c2"
        { id := some "p1", name := "Alice", isGameMaster := false }
        7).1.socketToPlayer "c2" = some "p1" ∧
      mapGet (handleJoin stRun "c2"
        { id := some "p1", name := "Alice", isGameMaster := false }
        7).1.socketToPlayer "c1" = some "p1" ∧
      resolvePlayer (handleJoin stRun "c2"
        { id := some "p1", name := "Alice", isGameMaster := false }
        7).1 "c1" = some ("p1", pl) ∧
      resolvePlayer (handleJoin stRun "c2"
        { id := some "p1", name := "Alice", isGameMaster := false }
        7).1 "c2" = some ("p1", pl) :=
  C2_join_rebinds_without_unbinding stRun "c1" "c2"
    { id := some "p1", name := "Alice", isGameMaster := false } 7 "p1"
    (by decide) (by decide) (by decide) (by decide)

/-! ### C5 — totalPuzzleCount is not fixed during a round -/

/-- C5 counterexample: with the phase already Running and
`totalPuzzleCount = 3`, a game-master `start(7)` is accepted and changes
`totalPuzzleCount` to the different nonzero value 7. -/
theorem C5_counterexample :
    phaseOf stRun.gameState = GamePhase.running ∧
      stRun.gameState.totalPuzzles = 3 ∧
      (step stRun "c0" (Msg.start 7) 9).1.gameState.totalPuzzles = 7 := by
  decide

/-- C5 (amended): the only message that assigns `totalPuzzleCount` a new
nonzero value is a `start` from a connection resolving to a game master —
but the start handler never checks the current phase, so this can happen
while Running or Ended as well as from the Lobby. -/
theorem C5_total_puzzles_only_changed_by_start (st : ServerState)
    (c : String) (m : Msg) (now : Int)
    (hchanged : (step st c m now).1.gameState.totalPuzzles ≠
      st.gameState.totalPuzzles)
    (hnonzero : (step st c m now).1.gameState.totalPuzzles ≠ 0) :
    ∃ n pid p, m = Msg.start n ∧ resolvePlayer st c = some (pid, p) ∧
      p.isGameMaster = true := by
  cases m with
  | join d =>
    exfalso; apply hchanged
    simp only [step, handleJoin]
    cases mapGet st.players (jsOrId d.id c) <;> rfl
  | ready r =>
    exfalso; apply hchanged
    simp only [step, handleReady]
    cases resolvePlayer st c with
    | none => rfl
    | some pp => obtain ⟨pid, p⟩ := pp; rfl
  | progress a b c2 d2 =>
    exfalso; apply hchanged
    simp only [step, handleProgress]
    cases resolvePlayer st c with
    | none => rfl
    | some pp => obtain ⟨pid, p⟩ := pp; rfl
  | complete d =>
    exfalso; apply hchanged
    simp only [step, handleComplete]
    cases resolvePlayer st c with
    | none => rfl
    | some pp => obtain ⟨pid, p⟩ := pp; rfl
  | start n =>
    cases hres : resolvePlayer st c with
    | none =>
      exfalso; apply hchanged
      simp [step, handleGameStart, hres]
    | some pp =>
      obtain ⟨pid, p⟩ := pp
      by_cases hgm : p.isGameMaster
      · exact ⟨n, pid, p, rfl, rfl, hgm⟩
      · exfalso
        apply hchanged
        simp only [step, handleGameStart, hres]
        simp [hgm]
  | endGame =>
    exfalso; apply hchanged
    cases hres : resolvePlayer st c with
    | none => simp [step, handleGameEnd, hres]
    | some pp =>
      obtain ⟨pid, p⟩ := pp
      by_cases hgm : p.isGameMaster <;>
        simp [step, handleGameEnd, hres, hgm]
  | reset =>
    cases hres : resolvePlayer st c with
    | none =>
      exfalso; apply hchanged
      simp [step, handleGameReset, hres]
    | some pp =>
      obtain ⟨pid, p⟩ := pp
      by_cases hgm : p.isGameMaster
      · exfalso; apply hnonzero
        simp [step, handleGameReset, hres, hgm, initialGameState]
      · exfalso; apply hchanged
        simp [step, handleGameReset, hres, hgm]
  | disconnect =>
    exfalso; apply hchanged
    simp [step, handleDisconnect]

/-- C5 (amended) witness: the mid-round `start(7)` of the counterexample,
fed through the amended theorem. -/
theorem C5_total_puzzles_only_changed_by_start_witness :
    ∃ n pid p, Msg.start 7 = Msg.start n ∧
      resolvePlayer stRun "c0" = some (pid, p) ∧ p.isGameMaster = true :=
  C5_total_puzzles_only_changed_by_start stRun "c0" (Msg.start 7) 9
    (by decide) (by decide)

/-! ### C6 — event/snapshot ordering -/

/-- C6 counterexample: `game:reset` emits both a discrete phase notice and
a roster snapshot, but the discrete event comes first (position 0) and the
snapshot second (position 1) — not strictly after. -/
theorem C6_counterexample :
    (step stRun "c0" Msg.reset 0).2.map isDiscrete = [true, false] ∧
      (step stRun "c0" Msg.reset 0).2.map isRoster = [false, true] := by
  decide

/-- C6 (amended): for every inbound message other than `reset`, every
discrete event the handler emits comes strictly after every roster
snapshot it emits (`reset` alone emits its phase notice first). -/
theorem C6_discrete_after_roster_except_reset (st : ServerState)
    (c : String) (m : Msg) (now : Int) (h : m ≠ Msg.reset) :
    noRosterAfterDiscrete (step st c m now).2 = true := by
  cases m with
  | join d =>
    simp only [step, handleJoin]
    cases mapGet st.players (jsOrId d.id c) <;>
      simp [noRosterAfterDiscrete, isDiscrete, isRoster]
  | ready r =>
    simp only [step, handleReady]
    cases resolvePlayer st c with
    | none => simp [noRosterAfterDiscrete]
    | some pp =>
      obtain ⟨pid, p⟩ := pp
      simp [noRosterAfterDiscrete, isDiscrete, isRoster]
  | progress a b c2 d2 =>
    simp only [step, handleProgress]
    cases resolvePlayer st c with
    | none => simp [noRosterAfterDiscrete]
    | some pp =>
      obtain ⟨pid, p⟩ := pp
      simp [noRosterAfterDiscrete, isDiscrete, isRoster]
  | complete d =>
    simp only [step, handleComplete]
    cases resolvePlayer st c with
    | none => simp [noRosterAfterDiscrete]
    | some pp =>
      obtain ⟨pid, p⟩ := pp
      simp [noRosterAfterDiscrete, isDiscrete, isRoster]
  | start n =>
    simp only [step, handleGameStart]
    cases resolvePlayer st c with
    | none => simp [noRosterAfterDiscrete]
    | some pp =>
      obtain ⟨pid, p⟩ := pp
      by_cases hgm : p.isGameMaster <;>
        simp [hgm, noRosterAfterDiscrete, isDiscrete, isRoster]
  | endGame =>
    simp only [step, handleGameEnd]
    cases resolvePlayer st c with
    | none => simp [noRosterAfterDiscrete]
    | some pp =>
      obtain ⟨pid, p⟩ := pp
      by_cases hgm : p.isGameMaster <;>
        simp [hgm, noRosterAfterDiscrete, isDiscrete, isRoster]
  | reset => exact absurd rfl h
  | disconnect =>
    simp [step, handleDisconnect, noRosterAfterDiscrete, isDiscrete,
      isRoster]

/-- C6 (amended) witness: a completion message at the mid-round fixture
emits its events in the snapshot-then-notice order. -/
theorem C6_discrete_after_roster_except_reset_witness :
    noRosterAfterDiscrete
      (step stRun "c1" (Msg.complete completeEx) 3).2 = true :=
  C6_discrete_after_roster_except_reset stRun "c1"
    (Msg.complete completeEx) 3 (by decide)
